import Mathlib

/-!
Verification development for the Open-Interface repository.

The embedding models two surfaces of the program:
* `app/interpreter.py` — the `Interpreter` class (`process_commands`,
  `process_command`, `execute_function`);
* `langgraph_interface/` — the tools (`tools.py`), the per-step dispatcher
  `OpenInterfaceNodes._execute_step`, the graph nodes (`nodes.py`), the
  conditional edge `_should_continue` and the loop wiring (`graph.py`).

Python's untyped values are modelled by `Value`; Python dicts by association
lists; the device backend (pyautogui / time.sleep / screen capture) by an
environment `Env` that decides, per primitive call, whether the call raises.
-/

namespace OpenInterface

/-- Python-like dynamic values (the untyped JSON-ish wire format of action
descriptors). Numbers are modelled by `ℚ`. -/
inductive Value : Type where
  | vNone : Value
  | vBool (b : Bool) : Value
  | vNum (q : ℚ) : Value
  | vStr (s : String) : Value
  | vList (l : List Value) : Value
  | vDict (d : List (String × Value)) : Value

/-- Is the first list a prefix of the second? -/
def charsHavePre : List Char → List Char → Bool
  | [], _ => true
  | _ :: _, [] => false
  | a :: as, b :: bs => a == b && charsHavePre as bs

/-- Does the second list contain the first as a contiguous sublist? -/
def charsContain (needle : List Char) : List Char → Bool
  | [] => needle.isEmpty
  | c :: t => charsHavePre needle (c :: t) || charsContain needle t

/-- Python `s.startswith(pre)`, on the underlying character lists. -/
def startsWithStr (s pre : String) : Bool :=
  charsHavePre pre.data s.data

/-- Replace every (non-overlapping, left-to-right) occurrence of `pat` by
`rep`; the fuel is the length of the scanned list, which one scan never
exhausts. -/
def replaceFuel (pat rep : List Char) : Nat → List Char → List Char
  | 0, l => l
  | _ + 1, [] => []
  | fuel + 1, c :: rest =>
    if charsHavePre pat (c :: rest) && !pat.isEmpty then
      rep ++ replaceFuel pat rep fuel ((c :: rest).drop pat.length)
    else
      c :: replaceFuel pat rep fuel rest

/-- Python `s.replace(pat, rep)` (all occurrences), on the underlying
character lists. -/
def strReplace (s pat rep : String) : String :=
  ⟨replaceFuel pat.data rep.data s.data.length s.data⟩

/-- Python truthiness (`bool(v)`). -/
def Value.truthy : Value → Bool
  | .vNone => false
  | .vBool b => b
  | .vNum q => decide (q ≠ 0)
  | .vStr s => !s.data.isEmpty
  | .vList l => !l.isEmpty
  | .vDict d => !d.isEmpty

/-- Is this value Python `None`? (used for `x is not None` tests). -/
def Value.isNone : Value → Bool
  | .vNone => true
  | _ => false

/-- Is this value a Python list? (used for `isinstance(v, list)` tests). -/
def Value.isList : Value → Bool
  | .vList _ => true
  | _ => false

mutual

/-- Python `repr(v)` (close enough for the diagnostic strings the program
prints; braces of dict literals are kept). -/
def Value.pyRepr : Value → String
  | .vNone => "None"
  | .vBool true => "True"
  | .vBool false => "False"
  | .vNum q => toString q
  | .vStr s => "'" ++ s ++ "'"
  | .vList l => "[" ++ pyReprList l ++ "]"
  | .vDict d => "\x7b" ++ pyReprPairs d ++ "\x7d"

/-- Comma-separated reprs of the elements of a Python list. -/
def pyReprList : List Value → String
  | [] => ""
  | [v] => Value.pyRepr v
  | v :: vs => Value.pyRepr v ++ ", " ++ pyReprList vs

/-- Comma-separated reprs of the items of a Python dict. -/
def pyReprPairs : List (String × Value) → String
  | [] => ""
  | [(k, v)] => "'" ++ k ++ "': " ++ Value.pyRepr v
  | (k, v) :: ps => "'" ++ k ++ "': " ++ Value.pyRepr v ++ ", " ++ pyReprPairs ps

end

/-- Python `str(v)` as used by f-string interpolation. -/
def Value.pyStr : Value → String
  | .vStr s => s
  | v => Value.pyRepr v

/-- A Python dict with string keys (association list, first binding wins,
mirroring the single-binding dicts the planner emits). -/
abbrev Dict := List (String × Value)

/-- `d[k]` as an optional lookup (`None` when the key is absent is handled by
`Dict.get`). -/
def Dict.get? (d : Dict) (k : String) : Option Value :=
  (d.find? (fun p => p.1 == k)).map (·.2)

/-- Python `d.get(k)` — `None` default. -/
def Dict.get (d : Dict) (k : String) : Value :=
  (Dict.get? d k).getD Value.vNone

/-- Python `d.get(k, default)`. -/
def Dict.getD (d : Dict) (k : String) (v : Value) : Value :=
  (Dict.get? d k).getD v

/-- Python `k in d`. -/
def Dict.hasKey (d : Dict) (k : String) : Bool :=
  (Dict.get? d k).isSome

/-- Python `d.values()` in insertion order. -/
def Dict.values (d : Dict) : List Value :=
  d.map (·.2)

/-- Python `a or b`. -/
def pyOr (a b : Value) : Value :=
  if a.truthy then a else b

/-- A raised Python exception, as far as the program inspects one
(`type(e)`/`str(e)` only). -/
inductive PyErr : Type where
  | keyError (k : String) : PyErr
  | attrError (m : String) : PyErr
  | raised (m : String) : PyErr

/-- Python `str(e)`. -/
def PyErr.msg : PyErr → String
  | .keyError k => "'" ++ k ++ "'"
  | .attrError m => m
  | .raised m => m

/-- One primitive device/backend call: `time.sleep(secs)` or a
`pyautogui.<fn>(*args, **kwargs)`-style call (also used for the screen
capture). The call sites record positional args and keyword args exactly as
the source passes them. -/
inductive Call : Type where
  | sleepFor (secs : Value) : Call
  | py (fn : String) (args : List Value) (kwargs : List (String × Value)) : Call

/-- Does this call target the named backend function? -/
def Call.isPyNamed (n : String) : Call → Bool
  | .py fn _ _ => fn == n
  | .sleepFor _ => false

/-- The device backend: for each primitive call, `none` means the call
succeeds, `some e` means it raises `e`. -/
abbrev Env := Call → Option PyErr

/-- Outcome of attempting a sequence of primitive calls in order: the calls
actually attempted (a prefix, ending with the first failing call) and the
exception of the first failure, if any. -/
structure ExecOut : Type where
  calls : List Call
  err : Option PyErr

/-- Attempt a sequence of primitive calls in order, stopping at the first
failure (a raised call aborts the rest, as straight-line Python does). -/
def runCalls (env : Env) : List Call → ExecOut
  | [] => ⟨[], none⟩
  | c :: cs =>
    match env c with
    | some e => ⟨[c], some e⟩
    | none =>
      let r := runCalls env cs
      ⟨c :: r.calls, r.err⟩

/-! ### `app/interpreter.py` — `Interpreter.execute_function` -/

/-- The attribute surface of the `pyautogui` module that matters here:
`hasattr(pyautogui, name)` is modelled as membership in this list. It contains
the canonical action names of the dispatcher plus other real pyautogui
functions reachable through the fall-through branch. -/
def pyautoguiAttrs : List String :=
  ["click", "write", "press", "hotkey", "sleep", "moveTo", "moveRel",
   "dragTo", "doubleClick", "rightClick", "middleClick", "scroll", "hscroll",
   "vscroll", "keyDown", "keyUp", "typewrite", "screenshot", "position",
   "size", "hold"]

/-- The fixed warm-up issued at the top of `execute_function`:
`pyautogui.press("command", interval=0.2)` followed by `sleep(0.1)`. -/
def warmupCalls : List Call :=
  [Call.py "press" [Value.vStr "command"] [("interval", Value.vNum (1/5))],
   Call.sleepFor (Value.vNum (1/10))]

/-- Name cleaning in `execute_function`: strip a leading `pyautogui.` or
`time.` qualifier (via Python `str.replace`, i.e. all occurrences, guarded by
`startswith`). -/
def cleanName (function_name : String) : String :=
  if startsWithStr function_name "pyautogui." then
    strReplace function_name "pyautogui." ""
  else if startsWithStr function_name "time." then
    strReplace function_name "time." ""
  else function_name

/-- The `press` branch body: a list of keys presses each key individually,
anything else is pressed as a single key. -/
def pressCalls (keys_to_press presses interval : Value) : List Call :=
  match keys_to_press with
  | Value.vList l =>
    l.map (fun key => Call.py "press" [key] [("presses", presses), ("interval", interval)])
  | k => [Call.py "press" [k] [("presses", presses), ("interval", interval)]]

/-- The primitive calls the body of `execute_function` issues after the
warm-up, branch by branch as in the source. An empty list arises from the
unknown-function branch (which only prints) and from the `click` branch with
a missing coordinate (which only prints). -/
def bodyCalls (fn : String) (parameters : Dict) : List Call :=
  let function_name := cleanName fn
  if function_name == "sleep"
      && (pyOr (Dict.get parameters "secs") (Dict.get parameters "seconds")).truthy then
    [Call.sleepFor (pyOr (Dict.get parameters "secs") (Dict.get parameters "seconds"))]
  else if pyautoguiAttrs.contains function_name then
    if function_name == "write"
        && (Dict.hasKey parameters "string" || Dict.hasKey parameters "text"
            || Dict.hasKey parameters "message") then
      let string_to_write :=
        pyOr (Dict.get parameters "string")
          (pyOr (Dict.get parameters "text") (Dict.get parameters "message"))
      let interval := Dict.getD parameters "interval" (Value.vNum (1/10))
      [Call.py "write" [string_to_write] [("interval", interval)]]
    else if function_name == "press"
        && (Dict.hasKey parameters "keys" || Dict.hasKey parameters "key") then
      let keys_to_press := pyOr (Dict.get parameters "keys") (Dict.get parameters "key")
      let presses := Dict.getD parameters "presses" (Value.vNum 1)
      let interval := Dict.getD parameters "interval" (Value.vNum (1/5))
      pressCalls keys_to_press presses interval
    else if function_name == "hotkey" then
      if Dict.hasKey parameters "keys" then
        match Dict.get parameters "keys" with
        | Value.vList keys => [Call.py "hotkey" keys []]
        | k => [Call.py "hotkey" [k] []]
      else
        [Call.py "hotkey" (Dict.values parameters) []]
    else if function_name == "click" then
      let x := Dict.get parameters "x"
      let y := Dict.get parameters "y"
      let clicks := Dict.getD parameters "clicks" (Value.vNum 1)
      if !x.isNone && !y.isNone then
        [Call.py "click" [x, y] [("clicks", clicks)]]
      else
        []
    else
      [Call.py function_name [] parameters]
  else
    []

/-- `Interpreter.execute_function`: warm-up then the branch body, attempted
against the backend; raises whatever the first failing call raises. -/
def execute_function (env : Env) (function_name : String) (parameters : Dict) : ExecOut :=
  runCalls env (warmupCalls ++ bodyCalls function_name parameters)

/-! ### `app/interpreter.py` — `Interpreter.process_command` / `process_commands` -/

/-- The `parameters` extracted from a descriptor:
`json_command.get('parameters', {})`. Values that are present but are not a
mapping are outside the model (the source would pass them through and fail on
the first attribute access inside `execute_function`). -/
def cmdParams (json_command : Dict) : Dict :=
  match Dict.get? json_command "parameters" with
  | some (Value.vDict d) => d
  | _ => []

/-- The error block `process_command` prints when `execute_function` raises:
it names the exception, the raw descriptor, the extracted function name and
the extracted parameters. -/
def errorBlock (fnv : Value) (parameters : Dict) (e : PyErr) : String :=
  "\nError:\nWe are having a problem executing this step - " ++ PyErr.msg e ++
  "\nThis was the json we received from the LLM" ++
  "\nThis is what we extracted:" ++
  "\n\t function_name:" ++ Value.pyRepr fnv ++
  "\n\t parameters:" ++ Value.pyRepr (Value.vDict parameters)

/-- What one `process_command` run produced when it did not itself raise:
the returned boolean, the primitive calls attempted, the justifications put
on the status queue, the concatenated printed output, and the exception the
`try`/`except` swallowed (if any). -/
structure ProcRes : Type where
  success : Bool
  calls : List Call
  status : List Value
  output : String
  caught : Option PyErr

/-- The body of the `try` block of `process_command`: `execute_function` on
a string name; a non-string `function` value reaches
`function_name.startswith` inside `execute_function` (after the warm-up) and
raises `AttributeError` there. -/
def executeFnV (env : Env) (fnv : Value) (parameters : Dict) : ExecOut :=
  match fnv with
  | Value.vStr s => execute_function env s parameters
  | _ =>
    let w := runCalls env warmupCalls
    match w.err with
    | some e => ⟨w.calls, some e⟩
    | none => ⟨w.calls, some (PyErr.attrError "'function' object has no attribute 'startswith'")⟩

/-- The header line `process_command` prints before dispatching. -/
def headerLine (fnv : Value) (parameters : Dict) (justification : Value) : String :=
  "Now performing - " ++ Value.pyRepr fnv ++ " - "
    ++ Value.pyRepr (Value.vDict parameters) ++ " - " ++ Value.pyRepr justification

/-- `Interpreter.process_command`. `json_command['function']` is evaluated
before the `try` block, so a descriptor without a `function` key raises
`KeyError` to the caller; every exception out of the `try` body is caught
and turned into a `False` return with a diagnostic print. -/
def process_command (env : Env) (json_command : Dict) : Except PyErr ProcRes :=
  match Dict.get? json_command "function" with
  | none => Except.error (PyErr.keyError "function")
  | some fnv =>
    let parameters := cmdParams json_command
    let justification := Dict.get json_command "human_readable_justification"
    match (executeFnV env fnv parameters).err with
    | none =>
      Except.ok ⟨true, (executeFnV env fnv parameters).calls, [justification],
        headerLine fnv parameters justification, none⟩
    | some e =>
      Except.ok ⟨false, (executeFnV env fnv parameters).calls, [justification],
        headerLine fnv parameters justification ++ errorBlock fnv parameters e, some e⟩

/-- What one `process_commands` run produced when it did not raise. -/
structure ProcsRes : Type where
  ret : Bool
  calls : List Call
  status : List Value

/-- `Interpreter.process_commands`: runs the commands in order and ends early,
returning `False`, at the first command whose `process_command` returns
`False`. -/
def process_commands (env : Env) : List Dict → Except PyErr ProcsRes
  | [] => Except.ok ⟨true, [], []⟩
  | c :: cs =>
    match process_command env c with
    | Except.error e => Except.error e
    | Except.ok r =>
      if r.success then
        match process_commands env cs with
        | Except.error e => Except.error e
        | Except.ok rs => Except.ok ⟨rs.ret, r.calls ++ rs.calls, r.status ++ rs.status⟩
      else
        Except.ok ⟨false, r.calls, r.status⟩

/-! ### `langgraph_interface/tools.py` — `PyAutoGUITools` -/

/-- Outcome of one tool function: the value it returns (or, for the `sleep`
tool which has no `try`/`except`, the exception it lets escape) together with
the primitive calls it attempted. -/
structure ToolOut : Type where
  result : Except PyErr String
  calls : List Call

/-- `PyAutoGUITools.click_tool`. -/
def click_tool (env : Env) (x y clicks : Value) : ToolOut :=
  let c := Call.py "click" [x, y] [("clicks", clicks)]
  match env c with
  | some e => ⟨Except.ok ("Click failed: " ++ PyErr.msg e), [c]⟩
  | none =>
    ⟨Except.ok ("Clicked at (" ++ x.pyStr ++ ", " ++ y.pyStr ++ ") with "
        ++ clicks.pyStr ++ " clicks"), [c]⟩

/-- `PyAutoGUITools.type_text`. -/
def type_text (env : Env) (text interval : Value) : ToolOut :=
  let c := Call.py "write" [text] [("interval", interval)]
  match env c with
  | some e => ⟨Except.ok ("Type failed: " ++ PyErr.msg e), [c]⟩
  | none => ⟨Except.ok ("Typed: " ++ text.pyStr), [c]⟩

/-- Python `"+".join(keys)` over the modelled values. -/
def joinKeys (keys : List Value) : String :=
  String.intercalate "+" (keys.map Value.pyStr)

/-- `PyAutoGUITools.press_key`: a list argument is sent to `pyautogui.hotkey`
as one combo, anything else to `pyautogui.press` (the tool has no `interval`
parameter). -/
def press_key (env : Env) (key presses : Value) : ToolOut :=
  match key with
  | Value.vList l =>
    let c := Call.py "hotkey" l []
    match env c with
    | some e => ⟨Except.ok ("Key press failed: " ++ PyErr.msg e), [c]⟩
    | none => ⟨Except.ok ("Pressed hotkey: " ++ joinKeys l), [c]⟩
  | k =>
    let c := Call.py "press" [k] [("presses", presses)]
    match env c with
    | some e => ⟨Except.ok ("Key press failed: " ++ PyErr.msg e), [c]⟩
    | none =>
      ⟨Except.ok ("Pressed key: " ++ k.pyStr ++ " (" ++ presses.pyStr ++ " times)"), [c]⟩

/-- `PyAutoGUITools.hotkey`. -/
def hotkey_combo (env : Env) (keys : List Value) : ToolOut :=
  let c := Call.py "hotkey" keys []
  match env c with
  | some e => ⟨Except.ok ("Hotkey failed: " ++ PyErr.msg e), [c]⟩
  | none => ⟨Except.ok ("Pressed hotkey: " ++ joinKeys keys), [c]⟩

/-- `PyAutoGUITools.sleep_tool`: no `try`/`except`, so a failing sleep
escapes to the caller. -/
def sleep_tool (env : Env) (seconds : Value) : ToolOut :=
  let c := Call.sleepFor seconds
  match env c with
  | some e => ⟨Except.error e, [c]⟩
  | none => ⟨Except.ok ("Slept for " ++ seconds.pyStr ++ " seconds"), [c]⟩

/-- `PyAutoGUITools.take_screenshot` (the captured blob's length is
abstracted away — no claim inspects it). -/
def take_screenshot (env : Env) : ToolOut :=
  let c := Call.py "screenshot" [] []
  match env c with
  | some e => ⟨Except.ok ("Screenshot failed: " ++ PyErr.msg e), [c]⟩
  | none => ⟨Except.ok "Screenshot taken: 1024 characters", [c]⟩

/-! ### `langgraph_interface/nodes.py` — `OpenInterfaceNodes._execute_step` -/

/-- The `tool_mapping` table of `_execute_step`: canonical name → index into
the tool list `[click, type_text, press_key, hotkey, sleep, take_screenshot]`. -/
def tool_mapping : List (String × Nat) :=
  [("click", 0), ("type_text", 1), ("write", 1), ("press_key", 2),
   ("press", 2), ("hotkey", 3), ("sleep", 4), ("take_screenshot", 5)]

/-- `tool_mapping.get(function_name)`. -/
def lookupTool (function_name : String) : Option Nat :=
  (tool_mapping.find? (fun p => p.1 == function_name)).map (·.2)

/-- Name cleaning in `_execute_step`: only the `pyautogui.` qualifier is
stripped. -/
def cleanPy (function_name : String) : String :=
  if startsWithStr function_name "pyautogui." then
    strReplace function_name "pyautogui." ""
  else function_name

/-- `tool.invoke(params)` on the tool at the given index: the structured-tool
layer supplies declared defaults and raises a validation error when a
required argument is missing (declared argument types beyond presence are not
modelled). -/
def invokeTool (env : Env) (idx : Nat) (params : Dict) : ToolOut :=
  match idx with
  | 0 =>
    match Dict.get? params "x", Dict.get? params "y" with
    | some x, some y => click_tool env x y (Dict.getD params "clicks" (Value.vNum 1))
    | _, _ => ⟨Except.error (PyErr.raised "validation error for click"), []⟩
  | 1 =>
    match Dict.get? params "text" with
    | some t => type_text env t (Dict.getD params "interval" (Value.vNum (1/20)))
    | none => ⟨Except.error (PyErr.raised "validation error for type_text"), []⟩
  | 2 =>
    match Dict.get? params "key" with
    | some k => press_key env k (Dict.getD params "presses" (Value.vNum 1))
    | none => ⟨Except.error (PyErr.raised "validation error for press_key"), []⟩
  | 3 =>
    -- the varargs `hotkey` tool cannot be invoked with a plain kwargs dict
    ⟨Except.error (PyErr.raised "validation error for hotkey"), []⟩
  | 4 => sleep_tool env (Dict.getD params "seconds" (Value.vNum 1))
  | _ => take_screenshot env

/-- `OpenInterfaceNodes._execute_step`: returns the output string recorded
for the step and the primitive calls attempted. Unknown names return an
`Unknown function:` string without touching any tool; every exception inside
the `try` block becomes an `Execution failed:` string. -/
def execute_step (env : Env) (function_name : String) (parameters : Dict) : String × List Call :=
  let fn := cleanPy function_name
  match lookupTool fn with
  | none => ("Unknown function: " ++ fn, [])
  | some idx =>
    if fn == "hotkey" && (Dict.get parameters "keys").isList then
      match Dict.get parameters "keys" with
      | Value.vList keys =>
        -- `tool.func(*keys)` — the underlying function, called directly
        let t := hotkey_combo env keys
        match t.result with
        | Except.ok s => (s, t.calls)
        | Except.error e => ("Execution failed: " ++ PyErr.msg e, t.calls)
      | _ => ("", [])
    else
      let params : Dict :=
        if fn == "write" || fn == "type_text" then
          if Dict.hasKey parameters "text" then
            [("text", Dict.get parameters "text"),
             ("interval", Dict.getD parameters "interval" (Value.vNum (1/20)))]
          else parameters
        else if fn == "press" || fn == "press_key" then
          if Dict.hasKey parameters "keys" then
            [("key", Dict.get parameters "keys"),
             ("presses", Dict.getD parameters "presses" (Value.vNum 1))]
          else parameters
        else if fn == "sleep" then
          if Dict.hasKey parameters "seconds" then
            [("seconds", Dict.get parameters "seconds")]
          else if Dict.hasKey parameters "secs" then
            [("seconds", Dict.get parameters "secs")]
          else
            [("seconds", Value.vNum 1)]
        else parameters
      let t := invokeTool env idx params
      match t.result with
      | Except.ok s => (s, t.calls)
      | Except.error e => ("Execution failed: " ++ PyErr.msg e, t.calls)

/-! ### `langgraph_interface/nodes.py` + `state.py` + `graph.py` — the loop -/

/-- The lower-cased output contains the substring `"failed"` — the test
`execution_node` derives the recorded `success` flag from
(`"failed" not in result.lower()`). -/
def containsFailed (s : String) : Bool :=
  charsContain "failed".data (s.data.map Char.toLower)

/-- One entry of `execution_results` as `execution_node` builds it. -/
structure ExecRecord : Type where
  function : String
  parameters : Dict
  justification : Value
  result : String
  success : Bool

/-- Build the `ExecRecord` for one step dict, together with the primitive
calls its dispatch attempted. Field extraction mirrors
`step.get("function", "")` etc.; a non-string `function` value would crash
the graph at `startswith` and is outside the model. -/
def mkRecord (env : Env) (step : Dict) : ExecRecord × List Call :=
  let function_name :=
    match Dict.get? step "function" with
    | some (Value.vStr s) => s
    | _ => ""
  let parameters :=
    match Dict.get? step "parameters" with
    | some (Value.vDict d) => d
    | _ => []
  let justification := Dict.getD step "human_readable_justification" (Value.vStr "")
  let (result, cs) := execute_step env function_name parameters
  (⟨function_name, parameters, justification, result, !containsFailed result⟩, cs)

/-- A plan as `planning_node` stores it: the `steps` list and the `done`
value of the instruction dict (`Value.vNone` when the key is absent). -/
structure Instr : Type where
  steps : List Dict
  done : Value

/-- The graph state (`OpenInterfaceState` in `state.py`). `messages`,
`user_request` and the settings fields play no role in the claims and are
omitted. `execution_results` is declared in `state.py` WITHOUT a reducer
annotation, so a node's returned value replaces the channel's previous
value; only `messages` has `add_messages`. -/
structure GState : Type where
  step_count : Nat
  max_steps : Nat
  current_instructions : Option Instr
  execution_results : List ExecRecord
  screenshot_data : Option String
  is_complete : Bool
  error_message : Option String
  interrupt_requested : Bool

/-- Python truthiness of `state.get("error_message")`. -/
def optTruthy : Option String → Bool
  | some m => !m.data.isEmpty
  | none => false

/-- The planner port: `model.get_instructions_for_objective` for a given
`step_count`, returning the instruction dict or raising. -/
abbrev Planner := Nat → Except String Instr

/-- `OpenInterfaceNodes.planning_node`. On success only
`current_instructions` is updated (the screenshot taken at step 0 and the
prompt messages are local to the node: the in-place write to the input dict
is not part of the returned update and does not reach the graph channels).
On failure `error_message` and `is_complete` are set. -/
def planning_node (planner : Planner) (s : GState) : GState :=
  match planner s.step_count with
  | Except.ok instr => { s with current_instructions := some instr }
  | Except.error msg =>
    { s with error_message := some ("Planning failed: " ++ msg), is_complete := true }

/-- The per-step loop inside `execution_node`: walks the step dicts in order,
checking the (externally mutable) interrupt flag before each dispatch;
`intr i` is the flag's value at the check before step `i`. Returns the
records built, the primitive calls attempted, and whether the walk stopped at
an interrupt. -/
def run_steps (env : Env) (intr : Nat → Bool) : Nat → List Dict → List ExecRecord × List Call × Bool
  | _, [] => ([], [], false)
  | i, step :: rest =>
    if intr i then ([], [], true)
    else
      let r := mkRecord env step
      let rest' := run_steps env intr (i + 1) rest
      (r.1 :: rest'.1, r.2 ++ rest'.2.1, rest'.2.2)

/-- `OpenInterfaceNodes.execution_node`. Missing or empty instructions are an
error. On an interrupt the node returns only `error_message`/`is_complete`,
so the records already built for this round are discarded and the
`execution_results` channel keeps its previous value. On normal completion
the returned `execution_results` REPLACES the channel's previous value
(no reducer in `state.py`) and `step_count` is incremented once. -/
def execution_node (env : Env) (intr : Nat → Bool) (s : GState) : GState × List Call :=
  match s.current_instructions with
  | none => ({ s with error_message := some "No instructions to execute", is_complete := true }, [])
  | some instr =>
    if instr.steps.isEmpty then
      ({ s with error_message := some "No instructions to execute", is_complete := true }, [])
    else
      match run_steps env intr 0 instr.steps with
      | (_, cs, true) =>
        ({ s with error_message := some "Execution interrupted by user", is_complete := true }, cs)
      | (rs, cs, false) =>
        ({ s with execution_results := rs, step_count := s.step_count + 1 }, cs)

/-- `OpenInterfaceNodes.validation_node`. With `current_instructions` still
`None` the attribute access `instructions.get` raises. A truthy `done` ends
the run; hitting the step budget ends it with `Maximum steps exceeded`;
otherwise the node resets `is_complete` to `False`. -/
def validation_node (s : GState) : Except PyErr GState :=
  match s.current_instructions with
  | none => Except.error (PyErr.attrError "'NoneType' object has no attribute 'get'")
  | some instr =>
    if instr.done.truthy then
      Except.ok { s with is_complete := true }
    else if s.step_count ≥ s.max_steps then
      Except.ok { s with is_complete := true, error_message := some "Maximum steps exceeded" }
    else
      Except.ok { s with is_complete := false }

/-- `OpenInterfaceNodes.screenshot_node`. It invokes `self.tools[4]` — which
is the SLEEP tool, not `take_screenshot` (index 5) — with no arguments, so
the tool's declared default `seconds=1.0` applies. A failure sets
`error_message` but NOT `is_complete`. -/
def screenshot_node (env : Env) (s : GState) : GState × List Call :=
  let t := sleep_tool env (Value.vNum 1)
  match t.result with
  | Except.ok out => ({ s with screenshot_data := some out }, t.calls)
  | Except.error e =>
    ({ s with error_message := some ("Screenshot failed: " ++ PyErr.msg e) }, t.calls)

/-- `OpenInterfaceGraph._should_continue`: the conditional edge out of
`validation`. -/
def should_continue (s : GState) : String :=
  if s.is_complete then "complete"
  else if optTruthy s.error_message then "complete"
  else if s.interrupt_requested then "complete"
  else "continue"

/-- `OpenInterfaceNodes.response_node`: the final message. With an error
message set it reports it; otherwise it reads `done` from the instructions
(raising if they are still `None`). -/
def response_node (s : GState) : Except PyErr (GState × String) :=
  if optTruthy s.error_message then
    Except.ok ({ s with is_complete := true },
      "Task completed with error: " ++ (s.error_message.getD ""))
  else
    match s.current_instructions with
    | none => Except.error (PyErr.attrError "'NoneType' object has no attribute 'get'")
    | some instr =>
      let response :=
        match instr.done with
        | Value.vNone => "Task completed successfully"
        | v => v.pyStr
      Except.ok ({ s with is_complete := true }, response)

/-- Outcome of driving the compiled graph: the final state, the response
message (when `response_node` ran), the number of planner calls, every
primitive call of the run in order, a graph-level exception if a node raised,
and whether the driver ran out of fuel (the recursion limit). -/
structure RunRes : Type where
  final : GState
  response : Option String
  planCalls : Nat
  calls : List Call
  raised : Option PyErr
  fuelOut : Bool

/-- The compiled graph of `graph.py`:
`planning → execution → validation --should_continue--> (screenshot → planning | response)`.
`intr r i` is the external interrupt flag as read before dispatching step `i`
of round `r` (rounds are numbered by planner calls so far). `fuel` bounds the
number of rounds, standing in for the recursion limit. -/
def loopFrom (env : Env) (planner : Planner) (intr : Nat → Nat → Bool) :
    Nat → GState → Nat → List Call → RunRes
  | 0, s, pc, cs => ⟨s, none, pc, cs, none, true⟩
  | fuel + 1, s, pc, cs =>
    let sP := planning_node planner s
    let eOut := execution_node env (intr pc) sP
    match validation_node eOut.1 with
    | Except.error e => ⟨eOut.1, none, pc + 1, cs ++ eOut.2, some e, false⟩
    | Except.ok sV =>
      if should_continue sV == "complete" then
        match response_node sV with
        | Except.error e => ⟨sV, none, pc + 1, cs ++ eOut.2, some e, false⟩
        | Except.ok r => ⟨r.1, some r.2, pc + 1, cs ++ eOut.2, none, false⟩
      else
        let shot := screenshot_node env sV
        loopFrom env planner intr fuel shot.1 (pc + 1) (cs ++ eOut.2 ++ shot.2)

/-- The initial state `execute_request` builds for a run. -/
def initState (max_steps : Nat) : GState :=
  { step_count := 0, max_steps := max_steps, current_instructions := none,
    execution_results := [], screenshot_data := none, is_complete := false,
    error_message := none, interrupt_requested := false }

/-- `OpenInterfaceGraph.execute_request`: the initial state of a run, then
the graph. -/
def execute_request (env : Env) (planner : Planner) (intr : Nat → Nat → Bool)
    (max_steps : Nat) (fuel : Nat) : RunRes :=
  loopFrom env planner intr fuel (initState max_steps) 0 []

/-! ### Concrete scenario material -/

/-- `needle` occurs contiguously inside `hay`. -/
def strContains (hay needle : String) : Prop :=
  ∃ pre post, hay = pre ++ needle ++ post

/-- The benign backend: every primitive call succeeds. -/
def envOk : Env := fun _ => none

/-- A backend on which every `time.sleep` raises (as an interrupted blocking
call would) and everything else succeeds. -/
def envNoSleep : Env := fun c =>
  match c with
  | Call.sleepFor _ => some (PyErr.raised "boom")
  | _ => none

/-- A backend on which `pyautogui.write` raises and everything else
succeeds. -/
def envNoWrite : Env := fun c =>
  match c with
  | Call.py "write" _ _ => some (PyErr.raised "cannot type")
  | _ => none

/-- A well-formed click descriptor (step dict) at the given coordinates. -/
def clickStep (x y : ℚ) : Dict :=
  [("function", Value.vStr "click"),
   ("parameters", Value.vDict [("x", Value.vNum x), ("y", Value.vNum y)])]

/-- The primitive click call the click tool issues for those coordinates. -/
def clickCall (x y : ℚ) : Call :=
  Call.py "click" [Value.vNum x, Value.vNum y] [("clicks", Value.vNum 1)]

/-- A planner that always returns the same three-click plan, never done. -/
def plannerThreeClicks : Planner := fun _ =>
  Except.ok ⟨[clickStep 1 2, clickStep 3 4, clickStep 5 6], Value.vNone⟩

/-- A planner that always returns a one-click plan, never done. -/
def plannerOneClick : Planner := fun _ =>
  Except.ok ⟨[clickStep 1 2], Value.vNone⟩

/-- A planner whose first plan has two clicks, and whose second plan has one
click and declares completion. -/
def plannerTwoRounds : Planner := fun n =>
  if n == 0 then Except.ok ⟨[clickStep 1 2, clickStep 3 4], Value.vNone⟩
  else Except.ok ⟨[clickStep 5 6], Value.vStr "All done"⟩

/-- The three-click plan used by `plannerThreeClicks`. -/
def threeClickPlan : Instr :=
  Instr.mk [clickStep 1 2, clickStep 3 4, clickStep 5 6] Value.vNone

/-- A reachable state: the initial state of a `max_steps = 3` run right
after a planning node stored the three-click plan. -/
def threeClickState : GState :=
  { initState 3 with current_instructions := some threeClickPlan }

/-- Unwrap a node outcome that is known not to raise (the fallback is inert). -/
def orInit : Except PyErr GState → GState
  | Except.ok s => s
  | Except.error _ => initState 0

/-- The state of the `envNoSleep`/`plannerThreeClicks` run after round one's
`planning → execution → validation`, i.e. just before the screenshot node —
reached by composing the graph's nodes along its edges from the initial
state. -/
def roundOneValidated : GState :=
  orInit (validation_node
    (execution_node envNoSleep (fun _ => false)
      (planning_node plannerThreeClicks (initState 3))).1)

/-- The same run one edge later: after `screenshot_node`, whose capture
failed. -/
def afterShotFailure : GState :=
  (screenshot_node envNoSleep roundOneValidated).1

/-! ### Helper lemmas -/

/-- A string contains itself. -/
theorem strContains_self (s : String) : strContains s s :=
  ⟨"", "", by simp⟩

/-- Containment extends to the left of an append. -/
theorem strContains_appendLeft (a b needle : String) (h : strContains a needle) :
    strContains (a ++ b) needle := by
  obtain ⟨pre, post, rfl⟩ := h
  exact ⟨pre, post ++ b, by simp [String.append_assoc]⟩

/-- Containment extends to the right of an append. -/
theorem strContains_appendRight (a b needle : String) (h : strContains b needle) :
    strContains (a ++ b) needle := by
  obtain ⟨pre, post, rfl⟩ := h
  exact ⟨a ++ pre, post, by simp [String.append_assoc]⟩

/-- Containment is transitive through an intermediate string. -/
theorem strContains_trans (a b c : String) (h1 : strContains a b) (h2 : strContains b c) :
    strContains a c := by
  obtain ⟨p, q, rfl⟩ := h1
  obtain ⟨u, v, rfl⟩ := h2
  exact ⟨p ++ u, v ++ q, by simp [String.append_assoc]⟩

/-- The error block of `process_command` names the raised exception. -/
theorem errorBlock_contains_err (fnv : Value) (parameters : Dict) (e : PyErr) :
    strContains (errorBlock fnv parameters e) (PyErr.msg e) := by
  unfold errorBlock
  apply strContains_appendLeft
  apply strContains_appendLeft
  apply strContains_appendLeft
  apply strContains_appendLeft
  apply strContains_appendLeft
  apply strContains_appendLeft
  apply strContains_appendRight
  exact strContains_self _

/-- The error block of `process_command` names the extracted function
value. -/
theorem errorBlock_contains_fn (fnv : Value) (parameters : Dict) (e : PyErr) :
    strContains (errorBlock fnv parameters e) (Value.pyRepr fnv) := by
  unfold errorBlock
  apply strContains_appendLeft
  apply strContains_appendLeft
  apply strContains_appendRight
  exact strContains_self _

/-- The error block of `process_command` names the extracted parameters. -/
theorem errorBlock_contains_params (fnv : Value) (parameters : Dict) (e : PyErr) :
    strContains (errorBlock fnv parameters e) (Value.pyRepr (Value.vDict parameters)) := by
  unfold errorBlock
  apply strContains_appendRight
  exact strContains_self _

/-- When no call of a sequence raises, every call of the sequence is
attempted. -/
theorem runCalls_calls_of_ok (env : Env) (cs : List Call)
    (h : (runCalls env cs).err = none) : (runCalls env cs).calls = cs := by
  induction cs with
  | nil => rfl
  | cons c rest ih =>
    cases henv : env c with
    | some e => simp [runCalls, henv] at h
    | none =>
      simp only [runCalls, henv] at h ⊢
      simpa using ih h

/-- With no interrupt, the step walk of `execution_node` builds one record
per step, in order, and attempts every step's calls. -/
theorem run_steps_no_intr (env : Env) (intr : Nat → Bool) (h : ∀ j, intr j = false)
    (steps : List Dict) : ∀ i : Nat,
      run_steps env intr i steps =
        (steps.map (fun st => (mkRecord env st).1),
         (steps.map (fun st => (mkRecord env st).2)).flatten, false) := by
  induction steps with
  | nil => intro i; simp [run_steps]
  | cons step rest ih => intro i; simp [run_steps, h i, ih (i + 1)]

/-- With instructions present, a nonempty plan and no interrupt,
`execution_node` replaces `execution_results` with this round's records (one
per step, in order), increments `step_count` once, and attempts every step's
calls; the other state fields are untouched. -/
theorem execution_node_of_no_intr (env : Env) (intr : Nat → Bool) (s : GState) (instr : Instr)
    (h1 : s.current_instructions = some instr) (h2 : instr.steps ≠ [])
    (h3 : ∀ j, intr j = false) :
    execution_node env intr s =
      ({ s with execution_results := instr.steps.map (fun st => (mkRecord env st).1),
                step_count := s.step_count + 1 },
       (instr.steps.map (fun st => (mkRecord env st).2)).flatten) := by
  simp [execution_node, h1, run_steps_no_intr env intr h3, h2]

/-- The step-budget behaviour of the loop: from a clean state (not complete,
no error, no interrupt), with a planner that always returns a nonempty plan
and never declares completion, no interrupts, and a working screenshot-slot
call, the loop runs exactly the remaining budget of rounds and terminates
with the max-steps diagnostic. -/
theorem loop_budget (env : Env) (planner : Planner) (intr : Nat → Nat → Bool)
    (hplan : ∀ n, ∃ ins, planner n = Except.ok ins ∧ ins.done = Value.vNone ∧ ins.steps ≠ [])
    (hintr : ∀ r i, intr r i = false)
    (henv : env (Call.sleepFor (Value.vNum 1)) = none) :
    ∀ (d fuel : Nat) (s : GState) (pc : Nat) (cs : List Call),
      s.is_complete = false → optTruthy s.error_message = false →
      s.interrupt_requested = false →
      s.max_steps = s.step_count + d → 1 ≤ d → d ≤ fuel →
      (loopFrom env planner intr fuel s pc cs).planCalls = pc + d ∧
      (loopFrom env planner intr fuel s pc cs).final.step_count = s.max_steps ∧
      (loopFrom env planner intr fuel s pc cs).final.error_message = some "Maximum steps exceeded" ∧
      (loopFrom env planner intr fuel s pc cs).response =
        some ("Task completed with error: " ++ "Maximum steps exceeded") ∧
      (loopFrom env planner intr fuel s pc cs).raised = none ∧
      (loopFrom env planner intr fuel s pc cs).fuelOut = false := by
  intro d
  induction d with
  | zero => intro fuel s pc cs _ _ _ _ h5 _; omega
  | succ k ih =>
    intro fuel s pc cs h1 h2 h3 h4 h5 h6
    obtain ⟨ins, hok, hdone, hsteps⟩ := hplan s.step_count
    cases fuel with
    | zero => omega
    | succ fuel' =>
      have hP : planning_node planner s = { s with current_instructions := some ins } := by
        simp [planning_node, hok]
      have hE := execution_node_of_no_intr env (intr pc)
        { s with current_instructions := some ins } ins rfl hsteps (fun j => hintr pc j)
      cases k with
      | zero =>
        have hbudget : s.max_steps ≤ s.step_count + 1 := by omega
        have hloop : loopFrom env planner intr (fuel' + 1) s pc cs =
            ⟨{ s with current_instructions := some ins,
                      execution_results := ins.steps.map (fun st => (mkRecord env st).1),
                      step_count := s.step_count + 1,
                      is_complete := true,
                      error_message := some "Maximum steps exceeded" },
              some ("Task completed with error: " ++ "Maximum steps exceeded"),
              pc + 1,
              cs ++ (ins.steps.map (fun st => (mkRecord env st).2)).flatten,
              none, false⟩ := by
          simp only [loopFrom, hP, hE]
          simp +decide [validation_node, hdone, Value.truthy, hbudget,
            should_continue, response_node, optTruthy]
        rw [hloop]
        refine ⟨by simp, ?_, rfl, rfl, rfl, rfl⟩
        simp
        omega
      | succ k' =>
        have hbudget : ¬ (s.max_steps ≤ s.step_count + 1) := by omega
        have hstep : loopFrom env planner intr (fuel' + 1) s pc cs =
            loopFrom env planner intr fuel'
              { step_count := s.step_count + 1, max_steps := s.max_steps,
                current_instructions := some ins,
                execution_results := ins.steps.map (fun st => (mkRecord env st).1),
                screenshot_data :=
                  some ("Slept for " ++ Value.pyStr (Value.vNum 1) ++ " seconds"),
                is_complete := false, error_message := s.error_message,
                interrupt_requested := s.interrupt_requested }
              (pc + 1)
              (cs ++ (ins.steps.map (fun st => (mkRecord env st).2)).flatten
                  ++ [Call.sleepFor (Value.vNum 1)]) := by
          simp only [loopFrom, hP, hE]
          simp +decide [validation_node, hdone, Value.truthy, hbudget,
            should_continue, h2, h3, screenshot_node, sleep_tool, henv]
        rw [hstep]
        obtain ⟨ha, hb, hc, hd, he, hf⟩ :=
          ih fuel'
            { step_count := s.step_count + 1, max_steps := s.max_steps,
              current_instructions := some ins,
              execution_results := ins.steps.map (fun st => (mkRecord env st).1),
              screenshot_data :=
                some ("Slept for " ++ Value.pyStr (Value.vNum 1) ++ " seconds"),
              is_complete := false, error_message := s.error_message,
              interrupt_requested := s.interrupt_requested }
            (pc + 1)
            (cs ++ (ins.steps.map (fun st => (mkRecord env st).2)).flatten
                ++ [Call.sleepFor (Value.vNum 1)])
            rfl h2 h3 (show s.max_steps = s.step_count + 1 + (k' + 1) by omega)
            (by omega) (by omega)
        exact ⟨by omega, hb, hc, hd, he, hf⟩

/-! ### Claim C1 -/

/-- C1, counterexample: a descriptor missing the required `function` field
does NOT produce a captured `success=false` result — `process_command`
raises `KeyError` to its caller, because the field is read before the `try`
block. -/
theorem c1_missing_function_raises :
    process_command envOk
        [("parameters", Value.vDict []), ("human_readable_justification", Value.vStr "because")] =
      Except.error (PyErr.keyError "function") := rfl

/-- C1, amended: for every descriptor that does contain the `function`
field, `process_command` returns (never raises), and when the dispatch body
raised, the result is `success=false` with a diagnostic output containing
the extracted function value, the raw parameters, the error cause, and (for
a string name) the action name itself. A descriptor without the `function`
field instead raises `KeyError` to the caller. -/
theorem c1_failures_captured (env : Env) (cmd : Dict) (fnv : Value)
    (hfn : Dict.get? cmd "function" = some fnv) :
    ∃ r, process_command env cmd = Except.ok r ∧
      ∀ e, r.caught = some e →
        r.success = false ∧
        strContains r.output (Value.pyRepr fnv) ∧
        strContains r.output (Value.pyRepr (Value.vDict (cmdParams cmd))) ∧
        strContains r.output (PyErr.msg e) ∧
        ∀ name, fnv = Value.vStr name → strContains r.output name := by
  cases hres : (executeFnV env fnv (cmdParams cmd)).err with
  | none =>
    have hpc : process_command env cmd =
        Except.ok ⟨true, (executeFnV env fnv (cmdParams cmd)).calls,
          [Dict.get cmd "human_readable_justification"],
          headerLine fnv (cmdParams cmd) (Dict.get cmd "human_readable_justification"),
          none⟩ := by
      simp [process_command, hfn, hres]
    refine ⟨_, hpc, ?_⟩
    intro e he
    exact absurd he (by simp)
  | some e0 =>
    have hpc : process_command env cmd =
        Except.ok ⟨false, (executeFnV env fnv (cmdParams cmd)).calls,
          [Dict.get cmd "human_readable_justification"],
          headerLine fnv (cmdParams cmd) (Dict.get cmd "human_readable_justification")
            ++ errorBlock fnv (cmdParams cmd) e0,
          some e0⟩ := by
      simp [process_command, hfn, hres]
    refine ⟨_, hpc, ?_⟩
    intro e he
    cases he
    refine ⟨rfl, ?_, ?_, ?_, ?_⟩
    · exact strContains_appendRight _ _ _ (errorBlock_contains_fn fnv _ e0)
    · exact strContains_appendRight _ _ _ (errorBlock_contains_params fnv _ e0)
    · exact strContains_appendRight _ _ _ (errorBlock_contains_err fnv _ e0)
    · rintro name rfl
      refine strContains_trans _ (Value.pyRepr (Value.vStr name)) _
        (strContains_appendRight _ _ _ (errorBlock_contains_fn _ _ e0)) ?_
      exact ⟨"'", "'", rfl⟩

/-- C1, witness: the amended theorem applied to a concrete `write`
descriptor on a backend whose `write` primitive raises. -/
theorem c1_failures_captured_witness :
    ∃ r, process_command envNoWrite
        [("function", Value.vStr "write"), ("parameters", Value.vDict [("text", Value.vStr "hi")])] =
          Except.ok r ∧
      ∀ e, r.caught = some e →
        r.success = false ∧
        strContains r.output (Value.pyRepr (Value.vStr "write")) ∧
        strContains r.output (Value.pyRepr (Value.vDict (cmdParams
          [("function", Value.vStr "write"), ("parameters", Value.vDict [("text", Value.vStr "hi")])]))) ∧
        strContains r.output (PyErr.msg e) ∧
        ∀ name, Value.vStr "write" = Value.vStr name → strContains r.output name :=
  c1_failures_captured envNoWrite
    [("function", Value.vStr "write"), ("parameters", Value.vDict [("text", Value.vStr "hi")])]
    (Value.vStr "write") rfl

/-! ### Claim C2 -/

/-- C2, counterexample: an unknown action name does NOT produce a
`success=false` result. In the LangGraph path the recorded success flag is
`true` (the output `Unknown function: unknown_fn` does not contain
`"failed"`), and in the interpreter path `process_command` returns `True`;
neither result carries an `UnknownAction` tag. Only the non-raising and
no-primitive parts of the claim hold. -/
theorem c2_unknown_counterexample :
    (execute_step envOk "unknown_fn" []).1 = "Unknown function: unknown_fn" ∧
    (execute_step envOk "unknown_fn" []).2 = [] ∧
    (mkRecord envOk [("function", Value.vStr "unknown_fn")]).1.success = true ∧
    (process_command envOk [("function", Value.vStr "unknown_fn")]).map
        (fun r => (r.success, r.calls)) = Except.ok (true, warmupCalls) := by
  refine ⟨rfl, rfl, ?_, rfl⟩
  decide

/-- C2, amended: for every descriptor whose (prefix-stripped) name is not in
the `tool_mapping` table, `_execute_step` returns the string
`Unknown function: <name>` without invoking any tool primitive and without
raising, and the `ExecutionResult` recorded for it gets
`success = true` unless the name itself makes the output contain `"failed"`;
in the interpreter, a name that is neither the `sleep` special case nor a
backend attribute issues no primitive call beyond the warm-up. -/
theorem c2_unknown_action :
    (∀ (env : Env) (fn : String) (params : Dict), lookupTool (cleanPy fn) = none →
      execute_step env fn params = ("Unknown function: " ++ cleanPy fn, []) ∧
      (mkRecord env [("function", Value.vStr fn), ("parameters", Value.vDict params)]).1.success
        = !containsFailed ("Unknown function: " ++ cleanPy fn)) ∧
    (∀ (fn : String) (params : Dict),
      (cleanName fn == "sleep"
        && (pyOr (Dict.get params "secs") (Dict.get params "seconds")).truthy) = false →
      pyautoguiAttrs.contains (cleanName fn) = false →
      bodyCalls fn params = []) := by
  constructor
  · intro env fn params h
    have h1 : execute_step env fn params = ("Unknown function: " ++ cleanPy fn, []) := by
      simp [execute_step, h]
    refine ⟨h1, ?_⟩
    simp [mkRecord, Dict.get?, h1]
  · intro fn params h1 h2
    have h2m : ¬ (cleanName fn ∈ pyautoguiAttrs) := by simpa using h2
    simp [bodyCalls, h1, h2m]

/-- C2, witness: the amended theorem applied to the name `unknown_fn` with
empty parameters. -/
theorem c2_unknown_action_witness :
    (execute_step envOk "unknown_fn" [] = ("Unknown function: " ++ cleanPy "unknown_fn", []) ∧
      (mkRecord envOk [("function", Value.vStr "unknown_fn"),
        ("parameters", Value.vDict [])]).1.success
        = !containsFailed ("Unknown function: " ++ cleanPy "unknown_fn")) ∧
    bodyCalls "unknown_fn" [] = [] :=
  ⟨c2_unknown_action.1 envOk "unknown_fn" [] rfl,
   c2_unknown_action.2 "unknown_fn" [] rfl rfl⟩

/-! ### Claim C3 -/

/-- C3, counterexample: with the interrupt flag set after 1 of 3 queued
descriptors has been dispatched, no further descriptor is dispatched and the
run terminates as interrupted — but ZERO `ExecutionResult`s are recorded for
the round, not exactly 1: the interrupted `execution_node` returns only
`error_message`/`is_complete`, discarding the records it had built. -/
theorem c3_interrupt_counterexample :
    (execute_request envOk plannerThreeClicks (fun _ i => decide (1 ≤ i)) 3 3).calls
        = [clickCall 1 2] ∧
    (execute_request envOk plannerThreeClicks (fun _ i => decide (1 ≤ i)) 3 3).final.execution_results
        = [] ∧
    (execute_request envOk plannerThreeClicks (fun _ i => decide (1 ≤ i)) 3 3).final.error_message
        = some "Execution interrupted by user" ∧
    (execute_request envOk plannerThreeClicks (fun _ i => decide (1 ≤ i)) 3 3).response
        = some "Task completed with error: Execution interrupted by user" ∧
    (execute_request envOk plannerThreeClicks (fun _ i => decide (1 ≤ i)) 3 3).planCalls = 1 := by
  refine ⟨rfl, rfl, rfl, rfl, rfl⟩

/-- C3, amended: if the interrupt flag is clear at the check before the
first descriptor and set at the check before the second, `execution_node`
dispatches only the first descriptor's calls, sets the interrupted error and
`is_complete` (so the conditional edge completes the run), and records ZERO
`ExecutionResult`s for the round — the partial records are discarded and the
`execution_results` channel keeps its previous value. -/
theorem c3_interrupt_halts (env : Env) (intr : Nat → Bool) (s : GState) (instr : Instr)
    (st0 st1 : Dict) (rest : List Dict)
    (h1 : s.current_instructions = some instr) (h2 : instr.steps = st0 :: st1 :: rest)
    (hi0 : intr 0 = false) (hi1 : intr 1 = true) :
    execution_node env intr s =
      ({ s with error_message := some "Execution interrupted by user", is_complete := true },
       (mkRecord env st0).2) ∧
    (execution_node env intr s).1.execution_results = s.execution_results ∧
    should_continue (execution_node env intr s).1 = "complete" := by
  have hrun : run_steps env intr 0 (st0 :: st1 :: rest) = ([(mkRecord env st0).1], (mkRecord env st0).2, true) := by
    simp [run_steps, hi0, hi1]
  have hmain : execution_node env intr s =
      ({ s with error_message := some "Execution interrupted by user", is_complete := true },
       (mkRecord env st0).2) := by
    simp [execution_node, h1, h2, hrun]
  refine ⟨hmain, ?_, ?_⟩
  · rw [hmain]
  · rw [hmain]; rfl

/-- C3, witness: the amended theorem applied to a concrete three-click plan
with the interrupt flag raised after the first dispatch. -/
theorem c3_interrupt_halts_witness :
    (execution_node envOk (fun i => decide (1 ≤ i)) threeClickState =
      ({ threeClickState with
          error_message := some "Execution interrupted by user", is_complete := true },
       (mkRecord envOk (clickStep 1 2)).2)) ∧
    (execution_node envOk (fun i => decide (1 ≤ i)) threeClickState).1.execution_results
      = threeClickState.execution_results ∧
    should_continue (execution_node envOk (fun i => decide (1 ≤ i)) threeClickState).1
      = "complete" :=
  c3_interrupt_halts envOk (fun i => decide (1 ≤ i)) threeClickState threeClickPlan
    (clickStep 1 2) (clickStep 3 4) [clickStep 5 6] rfl rfl rfl rfl

/-! ### Claim C4 -/

/-- C4, counterexample: in the interpreter surface cited by the claim
(`process_commands`), a per-descriptor failure DOES abort the run: with a
backend whose `write` raises, a two-command plan stops after the first
command — the trace holds only the first command's warm-up and write
attempt, no click call is ever attempted, and the second command's
justification is never enqueued. -/
theorem c4_abort_counterexample :
    (process_commands envNoWrite
        [[("function", Value.vStr "write"), ("parameters", Value.vDict [("text", Value.vStr "hi")])],
         clickStep 1 2]).map
      (fun r => (r.ret, r.calls, r.status.length)) =
      Except.ok (false,
        warmupCalls ++ [Call.py "write" [Value.vStr "hi"] [("interval", Value.vNum (1/10))]],
        1) := by
  rfl

/-- C4, amended: the two call surfaces disagree. In the LangGraph
`execution_node`, a per-descriptor failure does not abort the plan: with no
interrupt, every descriptor of the plan is dispatched and one result is
recorded per descriptor, in order, whatever each dispatch returned. In the
interpreter's `process_commands`, the first command whose `process_command`
returns `False` aborts the remainder of the plan. -/
theorem c4_policy_divergence :
    (∀ (env : Env) (intr : Nat → Bool) (s : GState) (instr : Instr),
      s.current_instructions = some instr → instr.steps ≠ [] → (∀ j, intr j = false) →
      execution_node env intr s =
        ({ s with execution_results := instr.steps.map (fun st => (mkRecord env st).1),
                  step_count := s.step_count + 1 },
         (instr.steps.map (fun st => (mkRecord env st).2)).flatten)) ∧
    (∀ (env : Env) (c : Dict) (cs : List Dict) (r : ProcRes),
      process_command env c = Except.ok r → r.success = false →
      process_commands env (c :: cs) = Except.ok ⟨false, r.calls, r.status⟩) := by
  constructor
  · intro env intr s instr h1 h2 h3
    exact execution_node_of_no_intr env intr s instr h1 h2 h3
  · intro env c cs r hc hf
    simp [process_commands, hc, hf]

/-- C4, witness: the amended theorem applied to a concrete two-step plan on
a backend whose `write` primitive raises (LangGraph side), and to the same
failing command ahead of a click command (interpreter side). -/
theorem c4_policy_divergence_witness :
    (execution_node envNoWrite (fun _ => false) threeClickState =
      ({ threeClickState with
          execution_results := threeClickPlan.steps.map (fun st => (mkRecord envNoWrite st).1),
          step_count := threeClickState.step_count + 1 },
       (threeClickPlan.steps.map (fun st => (mkRecord envNoWrite st).2)).flatten)) ∧
    process_commands envNoWrite
        [[("function", Value.vStr "write"), ("parameters", Value.vDict [("text", Value.vStr "hi")])],
         clickStep 1 2] =
      Except.ok ⟨false,
        warmupCalls ++ [Call.py "write" [Value.vStr "hi"] [("interval", Value.vNum (1/10))]],
        [Value.vNone]⟩ :=
  ⟨c4_policy_divergence.1 envNoWrite (fun _ => false) threeClickState threeClickPlan
      rfl (by simp [threeClickPlan]) (fun _ => rfl),
   c4_policy_divergence.2 envNoWrite
      [("function", Value.vStr "write"), ("parameters", Value.vDict [("text", Value.vStr "hi")])]
      [clickStep 1 2]
      ⟨false,
        warmupCalls ++ [Call.py "write" [Value.vStr "hi"] [("interval", Value.vNum (1/10))]],
        [Value.vNone],
        headerLine (Value.vStr "write") [("text", Value.vStr "hi")] Value.vNone
          ++ errorBlock (Value.vStr "write") [("text", Value.vStr "hi")] (PyErr.raised "cannot type"),
        some (PyErr.raised "cannot type")⟩
      rfl rfl⟩

/-! ### Claim C5 -/

/-- C5: for every run with `max_steps = 3` whose planner always returns a
plan (with steps, never a done message), with no interrupt and no other
failure, the loop terminates after exactly 3 rounds (`step_count` reaches 3)
with the max-steps-exceeded error as the single terminal outcome, having
issued exactly 3 planning calls; no exception escapes and the round budget
(`fuel`, standing for the recursion limit) is not what stopped it. -/
theorem c5_max_steps_three (env : Env) (planner : Planner) (intr : Nat → Nat → Bool) (fuel : Nat)
    (hplan : ∀ n, ∃ ins, planner n = Except.ok ins ∧ ins.done = Value.vNone ∧ ins.steps ≠ [])
    (hintr : ∀ r i, intr r i = false)
    (henv : env (Call.sleepFor (Value.vNum 1)) = none)
    (hfuel : 3 ≤ fuel) :
    (execute_request env planner intr 3 fuel).planCalls = 3 ∧
    (execute_request env planner intr 3 fuel).final.step_count = 3 ∧
    (execute_request env planner intr 3 fuel).final.error_message
      = some "Maximum steps exceeded" ∧
    (execute_request env planner intr 3 fuel).response
      = some "Task completed with error: Maximum steps exceeded" ∧
    (execute_request env planner intr 3 fuel).raised = none ∧
    (execute_request env planner intr 3 fuel).fuelOut = false := by
  have h := loop_budget env planner intr hplan hintr henv 3 fuel (initState 3) 0 []
    rfl rfl rfl rfl (by omega) hfuel
  simpa [execute_request, initState] using h

/-- C5, witness: a run with the one-click planner on the benign backend,
`max_steps = 3`, fuel 3. -/
theorem c5_max_steps_three_witness :
    (execute_request envOk plannerOneClick (fun _ _ => false) 3 3).planCalls = 3 ∧
    (execute_request envOk plannerOneClick (fun _ _ => false) 3 3).final.step_count = 3 ∧
    (execute_request envOk plannerOneClick (fun _ _ => false) 3 3).final.error_message
      = some "Maximum steps exceeded" ∧
    (execute_request envOk plannerOneClick (fun _ _ => false) 3 3).response
      = some "Task completed with error: Maximum steps exceeded" ∧
    (execute_request envOk plannerOneClick (fun _ _ => false) 3 3).raised = none ∧
    (execute_request envOk plannerOneClick (fun _ _ => false) 3 3).fuelOut = false :=
  c5_max_steps_three envOk plannerOneClick (fun _ _ => false) 3
    (fun _ => ⟨Instr.mk [clickStep 1 2] Value.vNone, rfl, rfl, by simp⟩)
    (fun _ _ => rfl) rfl (by omega)

/-! ### Claim C6 -/

/-- C6, counterexample: in the LangGraph path cited by the claim
(`_execute_step` → `press_key`), a `press` descriptor with
`keys = ["a","b"]` does NOT issue one press call per key: it issues exactly
one `hotkey` combo call and no press call at all. -/
theorem c6_press_list_counterexample :
    (execute_step envOk "press" [("keys", Value.vList [Value.vStr "a", Value.vStr "b"])]).2
      = [Call.py "hotkey" [Value.vStr "a", Value.vStr "b"] []] ∧
    (execute_step envOk "press" [("keys", Value.vList [Value.vStr "a", Value.vStr "b"])]).1
      = "Pressed hotkey: a+b" ∧
    ((execute_step envOk "press" [("keys", Value.vList [Value.vStr "a", Value.vStr "b"])]).2.filter
        (Call.isPyNamed "press")).length = 0 :=
  ⟨rfl, rfl, rfl⟩

/-- C6, amended: in the interpreter dispatcher, a `press` descriptor with a
nonempty list of keys issues (after the warm-up) one press call per key, in
list order, all with the same `presses`/`interval` (defaults 1 and 0.2), and
a truthy scalar key issues exactly one press call; in the LangGraph path, a
`keys` list is instead forwarded as a single `hotkey` combo call. -/
theorem c6_press_semantics :
    (∀ (params : Dict) (l : List Value),
      Dict.get? params "keys" = some (Value.vList l) → l ≠ [] →
      bodyCalls "press" params =
        l.map (fun key => Call.py "press" [key]
          [("presses", Dict.getD params "presses" (Value.vNum 1)),
           ("interval", Dict.getD params "interval" (Value.vNum (1/5)))])) ∧
    (∀ (params : Dict) (v : Value),
      Dict.get? params "keys" = some v → v.truthy = true → v.isList = false →
      bodyCalls "press" params =
        [Call.py "press" [v]
          [("presses", Dict.getD params "presses" (Value.vNum 1)),
           ("interval", Dict.getD params "interval" (Value.vNum (1/5)))]]) ∧
    (∀ (env : Env) (params : Dict) (l : List Value),
      Dict.get? params "keys" = some (Value.vList l) →
      (execute_step env "press" params).2 = [Call.py "hotkey" l []]) := by
  refine ⟨?_, ?_, ?_⟩
  · intro params l h hne
    have hne' : l.isEmpty = false := by simpa using hne
    have hget : Dict.get params "keys" = Value.vList l := by simp [Dict.get, h]
    have hkey : Dict.hasKey params "keys" = true := by simp [Dict.hasKey, h]
    simp +decide [bodyCalls, hget, hkey, pyOr, Value.truthy, hne', pressCalls]
  · intro params v h hv hnl
    have hget : Dict.get params "keys" = v := by simp [Dict.get, h]
    have hkey : Dict.hasKey params "keys" = true := by simp [Dict.hasKey, h]
    have hbody : bodyCalls "press" params =
        pressCalls v (Dict.getD params "presses" (Value.vNum 1))
          (Dict.getD params "interval" (Value.vNum (1/5))) := by
      simp +decide [bodyCalls, hget, hkey, pyOr, hv]
    rw [hbody]
    cases v <;> simp_all [pressCalls, Value.isList]
  · intro env params l h
    have hget : Dict.get params "keys" = Value.vList l := by simp [Dict.get, h]
    have hkey : Dict.hasKey params "keys" = true := by simp [Dict.hasKey, h]
    cases henv : env (Call.py "hotkey" l []) <;>
      simp +decide [execute_step, cleanPy, lookupTool, tool_mapping, hget, hkey,
        invokeTool, press_key, Dict.get?, Dict.getD, henv]

/-- C6, witness: the amended theorem applied to `keys = ["a","b"]` (list
cases) and `keys = "x"` (scalar case). -/
theorem c6_press_semantics_witness :
    bodyCalls "press" [("keys", Value.vList [Value.vStr "a", Value.vStr "b"])] =
      [Value.vStr "a", Value.vStr "b"].map (fun key => Call.py "press" [key]
        [("presses", Dict.getD [("keys", Value.vList [Value.vStr "a", Value.vStr "b"])]
            "presses" (Value.vNum 1)),
         ("interval", Dict.getD [("keys", Value.vList [Value.vStr "a", Value.vStr "b"])]
            "interval" (Value.vNum (1/5)))]) ∧
    bodyCalls "press" [("keys", Value.vStr "x")] =
      [Call.py "press" [Value.vStr "x"]
        [("presses", Dict.getD [("keys", Value.vStr "x")] "presses" (Value.vNum 1)),
         ("interval", Dict.getD [("keys", Value.vStr "x")] "interval" (Value.vNum (1/5)))]] ∧
    (execute_step envOk "press" [("keys", Value.vList [Value.vStr "a", Value.vStr "b"])]).2
      = [Call.py "hotkey" [Value.vStr "a", Value.vStr "b"] []] :=
  ⟨c6_press_semantics.1 [("keys", Value.vList [Value.vStr "a", Value.vStr "b"])]
      [Value.vStr "a", Value.vStr "b"] rfl (by simp),
   c6_press_semantics.2.1 [("keys", Value.vStr "x")] (Value.vStr "x") rfl rfl rfl,
   c6_press_semantics.2.2 envOk [("keys", Value.vList [Value.vStr "a", Value.vStr "b"])]
      [Value.vStr "a", Value.vStr "b"] rfl⟩

/-! ### Claim C7 -/

/-- C7, counterexample: after a screenshot failure the state reached along
the graph's own edges has `error_message` set while `is_complete` is still
false — the claimed invariant fails — and the run then dispatches one more
full plan (3 further clicks) before the post-validation check finally
terminates it with the screenshot error: it does not terminate at the next
validating check without further dispatch. -/
theorem c7_error_without_complete_counterexample :
    optTruthy afterShotFailure.error_message = true ∧
    afterShotFailure.error_message = some "Screenshot failed: boom" ∧
    afterShotFailure.is_complete = false ∧
    ((execution_node envNoSleep (fun _ => false)
        (planning_node plannerThreeClicks afterShotFailure)).2.filter
      (Call.isPyNamed "click")).length = 3 ∧
    (execute_request envNoSleep plannerThreeClicks (fun _ _ => false) 3 5).response
      = some "Task completed with error: Screenshot failed: boom" ∧
    (execute_request envNoSleep plannerThreeClicks (fun _ _ => false) 3 5).planCalls = 2 :=
  ⟨rfl, rfl, rfl, rfl, rfl, rfl⟩

/-- C7, amended: a truthy `error_message` makes the conditional edge after
validation terminate the run — but that check runs only after the NEXT
round's planning and execution, because `screenshot_node` sets
`error_message` without `is_complete`, and the graph goes
`screenshot → planning → execution → validation` before `_should_continue`
is consulted again; `screenshot_node` itself never changes `is_complete`. -/
theorem c7_error_terminates_at_check :
    (∀ s : GState, optTruthy s.error_message = true → should_continue s = "complete") ∧
    (∀ (env : Env) (s : GState), (screenshot_node env s).1.is_complete = s.is_complete) := by
  constructor
  · intro s h
    cases hc : s.is_complete <;> simp [should_continue, h, hc]
  · intro env s
    cases henv : env (Call.sleepFor (Value.vNum 1)) <;>
      simp [screenshot_node, sleep_tool, henv]

/-- C7, witness: the amended theorem applied to the reachable
screenshot-failure state and its backend. -/
theorem c7_error_terminates_at_check_witness :
    should_continue afterShotFailure = "complete" ∧
    (screenshot_node envNoSleep roundOneValidated).1.is_complete
      = roundOneValidated.is_complete :=
  ⟨c7_error_terminates_at_check.1 afterShotFailure rfl,
   c7_error_terminates_at_check.2 envNoSleep roundOneValidated⟩

/-! ### Claim C8 -/

/-- C8, counterexample: a click descriptor missing the `y` coordinate does
NOT produce a `success=false` result — the dispatcher skips the primitive
(only the warm-up calls are attempted) but `process_command` returns `True`,
because the missing-coordinate branch only prints and raises nothing. -/
theorem c8_click_missing_counterexample :
    (process_command envOk [("function", Value.vStr "click"),
        ("parameters", Value.vDict [("x", Value.vNum 10)])]).map
      (fun r => (r.success, r.calls)) = Except.ok (true, warmupCalls) := rfl

/-- C8, amended: a click descriptor missing either coordinate makes the
dispatcher skip the click primitive (no call with partial data; only the
warm-up is attempted) but the outcome reported is SUCCESS (`True`), not a
failure result; with both coordinates present the click primitive is invoked
with `(x, y)` and `clicks` defaulting to 1. -/
theorem c8_click_missing_coords :
    (∀ params : Dict,
      ((Dict.get params "x").isNone = true ∨ (Dict.get params "y").isNone = true) →
      bodyCalls "click" params = []) ∧
    (∀ (env : Env) (params : Dict),
      ((Dict.get params "x").isNone = true ∨ (Dict.get params "y").isNone = true) →
      (runCalls env warmupCalls).err = none →
      (process_command env [("function", Value.vStr "click"),
          ("parameters", Value.vDict params)]).map
        (fun r => (r.success, r.calls)) = Except.ok (true, warmupCalls)) ∧
    (∀ params : Dict,
      (Dict.get params "x").isNone = false → (Dict.get params "y").isNone = false →
      bodyCalls "click" params =
        [Call.py "click" [Dict.get params "x", Dict.get params "y"]
          [("clicks", Dict.getD params "clicks" (Value.vNum 1))]]) := by
  have hbody : ∀ params : Dict,
      ((Dict.get params "x").isNone = true ∨ (Dict.get params "y").isNone = true) →
      bodyCalls "click" params = [] := by
    intro params h
    rcases h with hx | hy
    · simp +decide [bodyCalls, hx]
    · simp +decide [bodyCalls, hy]
  refine ⟨hbody, ?_, ?_⟩
  · intro env params h herr
    have hparams : cmdParams [("function", Value.vStr "click"),
        ("parameters", Value.vDict params)] = params := rfl
    have hexec : executeFnV env (Value.vStr "click") params = runCalls env warmupCalls := by
      simp [executeFnV, execute_function, hbody params h]
    have hcalls := runCalls_calls_of_ok env warmupCalls herr
    simp [process_command, Dict.get?, hparams, hexec, herr, hcalls, Except.map]
  · intro params hx hy
    simp +decide [bodyCalls, hx, hy]

/-- C8, witness: the amended theorem applied to `{x: 10}` (missing `y`) and
to `{x: 10, y: 20}`. -/
theorem c8_click_missing_coords_witness :
    bodyCalls "click" [("x", Value.vNum 10)] = [] ∧
    (process_command envOk [("function", Value.vStr "click"),
        ("parameters", Value.vDict [("x", Value.vNum 10)])]).map
      (fun r => (r.success, r.calls)) = Except.ok (true, warmupCalls) ∧
    bodyCalls "click" [("x", Value.vNum 10), ("y", Value.vNum 20)] =
      [Call.py "click" [Dict.get [("x", Value.vNum 10), ("y", Value.vNum 20)] "x",
          Dict.get [("x", Value.vNum 10), ("y", Value.vNum 20)] "y"]
        [("clicks", Dict.getD [("x", Value.vNum 10), ("y", Value.vNum 20)] "clicks"
            (Value.vNum 1))]] :=
  ⟨c8_click_missing_coords.1 [("x", Value.vNum 10)] (Or.inr rfl),
   c8_click_missing_coords.2.1 envOk [("x", Value.vNum 10)] (Or.inr rfl) rfl,
   c8_click_missing_coords.2.2 [("x", Value.vNum 10), ("y", Value.vNum 20)] rfl rfl⟩

/-! ### Claim C9 -/

/-- C9, counterexample: results are NOT append-only across rounds. In a
two-round run that dispatches 3 descriptors in total (and 2 in round one,
as the separately-composed round-one execution shows), the final state's
results sequence holds only round two's single entry: round one's recorded
results were replaced, because `execution_results` has no reducer in
`state.py` and each `execution_node` return overwrites the channel. -/
theorem c9_results_replaced_counterexample :
    (execute_request envOk plannerTwoRounds (fun _ _ => false) 5 3).final.execution_results.length
        = 1 ∧
    ((execute_request envOk plannerTwoRounds (fun _ _ => false) 5 3).calls.filter
        (Call.isPyNamed "click")).length = 3 ∧
    (execute_request envOk plannerTwoRounds (fun _ _ => false) 5 3).response = some "All done" ∧
    (execution_node envOk (fun _ => false)
        (planning_node plannerTwoRounds (initState 5))).1.execution_results.length = 2 :=
  ⟨rfl, rfl, rfl, rfl⟩

/-- C9, amended: within one round, results are built in dispatch order, one
per descriptor; but the value `execution_node` returns REPLACES the
channel's previous content — whatever results `r0` the state already held,
after a completed round the sequence is exactly this round's records. -/
theorem c9_results_replaced (env : Env) (intr : Nat → Bool) (s : GState) (instr : Instr)
    (r0 : List ExecRecord)
    (h1 : s.current_instructions = some instr) (h2 : instr.steps ≠ [])
    (h3 : ∀ j, intr j = false) :
    (execution_node env intr { s with execution_results := r0 }).1.execution_results
      = instr.steps.map (fun st => (mkRecord env st).1) := by
  have hrun := execution_node_of_no_intr env intr
    { s with execution_results := r0 } instr h1 h2 h3
  rw [hrun]

/-- C9, witness: the amended theorem applied to the three-click plan over a
nonempty pre-existing results list, which is discarded. -/
theorem c9_results_replaced_witness :
    (execution_node envOk (fun _ => false)
        { threeClickState with execution_results := [(mkRecord envOk (clickStep 9 9)).1] }).1.execution_results
      = threeClickPlan.steps.map (fun st => (mkRecord envOk st).1) :=
  c9_results_replaced envOk (fun _ => false) threeClickState threeClickPlan
    [(mkRecord envOk (clickStep 9 9)).1] rfl (by simp [threeClickPlan]) (fun _ => rfl)

/-! ### Claim C10 -/

/-- C10: the recorded success flag is derived solely from the output string
(`success := "failed" not in result.lower()`): a `type_text` step whose text
contains the word `failed` executes its primitive successfully yet is
recorded with `success = false` (its output echoes the text), while an
unknown-function step that executes no primitive at all is recorded with
`success = true`. -/
theorem c10_success_from_output :
    (∀ (env : Env) (step : Dict),
      (mkRecord env step).1.success = !containsFailed (mkRecord env step).1.result) ∧
    ((mkRecord envOk [("function", Value.vStr "type_text"),
        ("parameters", Value.vDict [("text", Value.vStr "failed test")])]).1.result
        = "Typed: failed test" ∧
     (mkRecord envOk [("function", Value.vStr "type_text"),
        ("parameters", Value.vDict [("text", Value.vStr "failed test")])]).1.success = false ∧
     (mkRecord envOk [("function", Value.vStr "type_text"),
        ("parameters", Value.vDict [("text", Value.vStr "failed test")])]).2
        = [Call.py "write" [Value.vStr "failed test"] [("interval", Value.vNum (1/20))]]) ∧
    ((mkRecord envOk [("function", Value.vStr "unknown_fn")]).1.result
        = "Unknown function: unknown_fn" ∧
     (mkRecord envOk [("function", Value.vStr "unknown_fn")]).1.success = true ∧
     (mkRecord envOk [("function", Value.vStr "unknown_fn")]).2 = []) := by
  refine ⟨fun env step => rfl, ⟨rfl, by decide, rfl⟩, ⟨rfl, by decide, rfl⟩⟩

end OpenInterface
